import Mathlib

/-!
Shallow embedding of `packages/hyperion-autologging/src/ALSurfaceMutationPublisher.ts`
(the Surface Mutation Tracker).

Modelling choices:
* DOM nodes are opaque `Nat` identifiers; the external collaborators
  (`instanceof HTMLElement`, `nodeName`, `Element.contains`, component
  introspection, text capture, the auto-logging-ID generator and the event
  index generator) live in an `Env` record of pure functions.
* The event-index generator is modelled as a stream `getNextEventIndex : Nat → Int`
  together with a call counter in the tracker state: the k-th call returns
  `getNextEventIndex k`.
* Metadata bags are shared by reference in the source; we model a heap
  `metaStore : Nat → Metadata` and records/events hold the bag's address.
* Timestamps are `ℚ` (the source uses fractional milliseconds).
* The fatal `assert` in `emitMutationEvent` is modelled by returning
  `Except String _`: `.error` is the assertion firing.
-/

/-- A causal-chain reference; `fullName` is the result of `ALFlowlet.getFullName()`. -/
structure ALFlowlet where
  fullName : String
deriving DecidableEq

/-- Component introspection result (`ReactComponentData` from `ALReactUtils`). -/
structure ReactComponentData where
  name : String
  stack : String
deriving DecidableEq

/-- Text-capture result (`ALElementTextEvent` from `ALInteractableDOMElement`),
kept opaque as a single payload string. -/
structure ALElementTextEvent where
  elementText : String
deriving DecidableEq

/-- A metadata bag's contents: string-keyed string properties. -/
abbrev Metadata := List (String × String)

/-- Reading property `k` of a metadata bag (latest assignment wins). -/
def metaGet : Metadata → String → Option String
  | [], _ => none
  | p :: rest, k => if p.1 = k then some p.2 else metaGet rest k

/-- JS property assignment `bag[k] = v`. -/
def metaSet (m : Metadata) (k v : String) : Metadata :=
  (k, v) :: m

/-- Updating the metadata heap at address `r`. -/
def storeSet (store : Nat → Metadata) (r : Nat) (m : Metadata) : Nat → Metadata :=
  fun x => if x = r then m else store x

/-- The two values of the `event` discriminant of `ALMutationEvent`. -/
inductive MutationKind where
  | mount_component
  | unmount_component
deriving DecidableEq

/-- The non-recursive fields of an emitted `ALSurfaceMutationEventData` object.
The first block mirrors the `{...surfaceInfo}` spread; the second block the
explicitly assigned fields. `metadata` is the heap address of the shared bag. -/
structure EventBase where
  surface : String
  element : Nat
  addTime : ℚ
  removeTime : Option ℚ
  flowlet : ALFlowlet
  addFlowlet : Option ALFlowlet
  removeFlowlet : Option ALFlowlet
  reactComponentName : Option String
  reactComponentStack : Option String
  elementText : ALElementTextEvent
  metadata : Nat
  event : MutationKind
  eventTimestamp : ℚ
  eventIndex : Int
  autoLoggingID : Nat
  mountedDuration : Option ℚ
deriving DecidableEq

/-- An emitted event: its fields plus the (possibly embedded) mount event. -/
inductive ALSurfaceMutationEventData where
  | mk (base : EventBase) (mountEvent : Option ALSurfaceMutationEventData)

/-- The non-recursive fields of an event. -/
def ALSurfaceMutationEventData.base : ALSurfaceMutationEventData → EventBase
  | .mk b _ => b

/-- The embedded mount event of an unmount event (`none` on mount events). -/
def ALSurfaceMutationEventData.mountEvent :
    ALSurfaceMutationEventData → Option ALSurfaceMutationEventData
  | .mk _ m => m

/-- The `SurfaceInfo` record kept in the live map `activeSurfaces`.
`element` is the reference node; `metadata` the heap address of the shared bag. -/
structure SurfaceInfo where
  surface : String
  element : Nat
  addTime : ℚ
  removeTime : Option ℚ
  flowlet : ALFlowlet
  addFlowlet : Option ALFlowlet
  removeFlowlet : Option ALFlowlet
  reactComponentName : Option String
  reactComponentStack : Option String
  elementText : ALElementTextEvent
  mountEvent : Option ALSurfaceMutationEventData
  metadata : Nat

/-- External collaborators and the `cacheElementReactInfo` configuration flag. -/
structure Env where
  isHTMLElement : Nat → Bool
  nodeName : Nat → String
  contains : Nat → Nat → Bool
  getReactComponentData : Nat → Option ReactComponentData
  getElementTextEvent : Option Nat → String → ALElementTextEvent
  getOrSetAutoLoggingID : Nat → Nat
  getNextEventIndex : Nat → Int
  cacheElementReactInfo : Bool

/-- Tracker state: the live surface map, the metadata heap, and the number of
calls already made to the event index generator. -/
structure TrackerState where
  activeSurfaces : List (String × SurfaceInfo)
  metaStore : Nat → Metadata
  genCalls : Nat

/-- Lookup `activeSurfaces.get(k)`. -/
def mapGet : List (String × SurfaceInfo) → String → Option SurfaceInfo
  | [], _ => none
  | p :: rest, k => if p.1 = k then some p.2 else mapGet rest k

/-- Removal `activeSurfaces.delete(k)`. -/
def mapDelete : List (String × SurfaceInfo) → String → List (String × SurfaceInfo)
  | [], _ => []
  | p :: rest, k => if p.1 = k then mapDelete rest k else p :: mapDelete rest k

/-- Insertion `activeSurfaces.set(k, v)`. -/
def mapSet (m : List (String × SurfaceInfo)) (k : String) (v : SurfaceInfo) :
    List (String × SurfaceInfo) :=
  (k, v) :: mapDelete m k

/-- An incoming `ALChannelSurfaceEventData` notification, together with the two
values captured at `processNode` entry: `performanceAbsoluteNow()` and
`flowletManager.top()`. -/
structure Notification where
  element : Nat
  surface : Option String
  flowlet : ALFlowlet
  metadata : Nat
  timestamp : ℚ
  currFlowlet : Option ALFlowlet

/-- The `action` argument of `processNode`. -/
inductive MutationAction where
  | added
  | removed
deriving DecidableEq

/-- Whether `sub` occurs somewhere inside `s` (what the anchor-free regex test does). -/
def strContainsSub (s sub : String) : Bool :=
  s.data.tails.any (fun t => sub.data.isPrefixOf t)

/-- The guard regex `/LINK|SCRIPT/.test(nodeName)`: substring match of either
alternative anywhere in the node name. -/
def testLinkScript (s : String) : Bool :=
  strContainsSub s "LINK" || strContainsSub s "SCRIPT"

/-- Model of `if (flowlet) \x7b metadata[key] = flowlet.getFullName() \x7d`: conditionally
writes the resolved flowlet name into the bag at heap address `r`. -/
def attachFlowlet (metaStore : Nat → Metadata) (r : Nat) (key : String) :
    Option ALFlowlet → Nat → Metadata
  | some flowlet => storeSet metaStore r (metaSet (metaStore r) key flowlet.fullName)
  | none => metaStore

/-- Model of `emitMutationEvent(action, surfaceInfo)`: resolves the captured flowlet into
the shared metadata bag, builds the event object from `{...surfaceInfo}` plus
the event-specific fields, and (on mount) assigns it to `surfaceInfo.mountEvent`.
Returns the updated record, metadata heap, generator call count, and the event.
The `removed` arm's `assert` failure is `.error`. -/
def emitMutationEvent (env : Env) (action : MutationAction) (surfaceInfo : SurfaceInfo)
    (metaStore : Nat → Metadata) (genCalls : Nat) :
    Except String (SurfaceInfo × (Nat → Metadata) × Nat × ALSurfaceMutationEventData) :=
  match action with
  | .added =>
    let store1 : Nat → Metadata :=
      attachFlowlet metaStore surfaceInfo.metadata "add_flowlet" surfaceInfo.addFlowlet
    let ev : ALSurfaceMutationEventData := .mk
      { surface := surfaceInfo.surface
        element := surfaceInfo.element
        addTime := surfaceInfo.addTime
        removeTime := surfaceInfo.removeTime
        flowlet := surfaceInfo.flowlet
        addFlowlet := surfaceInfo.addFlowlet
        removeFlowlet := surfaceInfo.removeFlowlet
        reactComponentName := surfaceInfo.reactComponentName
        reactComponentStack := surfaceInfo.reactComponentStack
        elementText := surfaceInfo.elementText
        metadata := surfaceInfo.metadata
        event := .mount_component
        eventTimestamp := surfaceInfo.addTime
        eventIndex := env.getNextEventIndex genCalls
        autoLoggingID := env.getOrSetAutoLoggingID surfaceInfo.element
        mountedDuration := none }
      surfaceInfo.mountEvent
    .ok ({ surfaceInfo with mountEvent := some ev }, store1, genCalls + 1, ev)
  | .removed =>
    match surfaceInfo.mountEvent, surfaceInfo.removeTime with
    | some mountEvent, some removeTime =>
      let store1 : Nat → Metadata :=
        attachFlowlet metaStore surfaceInfo.metadata "remove_flowlet" surfaceInfo.removeFlowlet
      let ev : ALSurfaceMutationEventData := .mk
        { surface := surfaceInfo.surface
          element := surfaceInfo.element
          addTime := surfaceInfo.addTime
          removeTime := surfaceInfo.removeTime
          flowlet := surfaceInfo.flowlet
          addFlowlet := surfaceInfo.addFlowlet
          removeFlowlet := surfaceInfo.removeFlowlet
          reactComponentName := surfaceInfo.reactComponentName
          reactComponentStack := surfaceInfo.reactComponentStack
          elementText := surfaceInfo.elementText
          metadata := surfaceInfo.metadata
          event := .unmount_component
          eventTimestamp := removeTime
          eventIndex := env.getNextEventIndex genCalls
          autoLoggingID := env.getOrSetAutoLoggingID surfaceInfo.element
          mountedDuration := some ((removeTime - surfaceInfo.addTime) / 1000) }
        (some mountEvent)
      .ok (surfaceInfo, store1, genCalls + 1, ev)
    | _, _ => .error "Missing mutaion info for unmounting"

/-- Model of `processNode(event, action)`: the Tracker's notification handler. Returns the
new state and the list of events emitted by this call (`[]` or one event);
`.error` models the fatal assertion in the unmount-emission path. -/
def processNode (env : Env) (s : TrackerState) (event : Notification) (action : MutationAction) :
    Except String (TrackerState × List ALSurfaceMutationEventData) :=
  if !(env.isHTMLElement event.element) || testLinkScript (env.nodeName event.element) then
    .ok (s, [])
  else
    match event.surface with
    | none => .ok (s, [])
    | some surface =>
      match action with
      | .added =>
        match mapGet s.activeSurfaces surface with
        | none =>
          let reactComponentData : Option ReactComponentData :=
            if env.cacheElementReactInfo then env.getReactComponentData event.element
            else none
          let elementText : ALElementTextEvent :=
            if env.cacheElementReactInfo then env.getElementTextEvent (some event.element) surface
            else env.getElementTextEvent none surface
          let info : SurfaceInfo :=
            { surface := surface
              element := event.element
              addTime := event.timestamp
              removeTime := none
              flowlet := event.flowlet
              addFlowlet := event.currFlowlet
              removeFlowlet := none
              reactComponentName := reactComponentData.map (fun d => d.name)
              reactComponentStack := reactComponentData.map (fun d => d.stack)
              elementText := elementText
              mountEvent := none
              metadata := event.metadata }
          match emitMutationEvent env .added info s.metaStore s.genCalls with
          | .ok (info1, store1, calls1, ev) =>
            .ok ({ activeSurfaces := mapSet s.activeSurfaces surface info1,
                   metaStore := store1, genCalls := calls1 }, [ev])
          | .error e => .error e
        | some info =>
          if event.element ≠ info.element ∧ env.contains event.element info.element = true then
            let info1 : SurfaceInfo :=
              { info with element := event.element
                          addFlowlet := event.currFlowlet
                          addTime := event.timestamp }
            .ok ({ s with activeSurfaces := mapSet s.activeSurfaces surface info1 }, [])
          else
            .ok (s, [])
      | .removed =>
        match mapGet s.activeSurfaces surface with
        | some info =>
          if info.element = event.element then
            let info1 : SurfaceInfo :=
              { info with removeFlowlet := event.currFlowlet
                          removeTime := some event.timestamp }
            match emitMutationEvent env .removed info1 s.metaStore s.genCalls with
            | .ok (_, store1, calls1, ev) =>
              .ok ({ activeSurfaces := mapDelete s.activeSurfaces surface,
                     metaStore := store1, genCalls := calls1 }, [ev])
            | .error e => .error e
          else
            .ok (s, [])
        | none => .ok (s, [])

/-- Feeding a whole sequence of notifications through `processNode`,
collecting all emitted events in order. -/
def runProcess (env : Env) : TrackerState → List (Notification × MutationAction) →
    Except String (TrackerState × List ALSurfaceMutationEventData)
  | s, [] => .ok (s, [])
  | s, (n, a) :: rest =>
    match processNode env s n a with
    | .error e => .error e
    | .ok (s1, es1) =>
      match runProcess env s1 rest with
      | .error e => .error e
      | .ok (s2, es2) => .ok (s2, es1 ++ es2)

/-- States reachable from an empty live map by any sequence of notifications
(the metadata heap and generator position start arbitrary). -/
inductive Reachable : TrackerState → Prop where
  | init (store : Nat → Metadata) (k : Nat) : Reachable ⟨[], store, k⟩
  | step (env : Env) (s s' : TrackerState) (n : Notification) (a : MutationAction)
      (es : List ALSurfaceMutationEventData) :
      Reachable s → processNode env s n a = .ok (s', es) → Reachable s'

/-- The conditions under which `processNode` runs the first-open (mount) path:
a trackable element, a present surface id, and no open record. -/
def FirstOpen (env : Env) (s : TrackerState) (n : Notification) (a : MutationAction) : Prop :=
  a = .added ∧ env.isHTMLElement n.element = true ∧
  testLinkScript (env.nodeName n.element) = false ∧
  ∃ sf, n.surface = some sf ∧ mapGet s.activeSurfaces sf = none

/-- The conditions under which `processNode` runs the matching-close (unmount)
path: a trackable element, a present surface id, an open record whose
reference node is the notified node. -/
def MatchingClose (env : Env) (s : TrackerState) (n : Notification) (a : MutationAction) : Prop :=
  a = .removed ∧ env.isHTMLElement n.element = true ∧
  testLinkScript (env.nodeName n.element) = false ∧
  ∃ sf info, n.surface = some sf ∧ mapGet s.activeSurfaces sf = some info ∧
    info.element = n.element

/-- The ignorable/stale inputs of the spec: untrackable node kind, missing
surface id, a remove for an absent record or a non-matching reference node, or
a duplicate/unrelated add (including re-notification of the current reference
node, which fails the `element != info.element` half of the promotion test). -/
def IgnorableInput (env : Env) (s : TrackerState) (n : Notification) (a : MutationAction) : Prop :=
  (env.isHTMLElement n.element = false ∨ testLinkScript (env.nodeName n.element) = true)
  ∨ n.surface = none
  ∨ (a = .removed ∧ ∃ sf, n.surface = some sf ∧
      (mapGet s.activeSurfaces sf = none ∨
        ∃ info, mapGet s.activeSurfaces sf = some info ∧ info.element ≠ n.element))
  ∨ (a = .added ∧ ∃ sf info, n.surface = some sf ∧ mapGet s.activeSurfaces sf = some info ∧
      ¬(n.element ≠ info.element ∧ env.contains n.element info.element = true))

/-- Invariant of the live map: every record was opened (holds a mount event)
and its mount event shares the record's metadata bag. -/
def RecordsOk (s : TrackerState) : Prop :=
  ∀ p ∈ s.activeSurfaces,
    ∃ me, p.2.mountEvent = some me ∧ me.base.metadata = p.2.metadata

/-! ### Concrete collaborators and states used to instantiate the theorems -/

/-- A concrete collaborator environment: every node is a trackable `DIV`,
node `a` contains node `b` iff `b < a`, introspection is off, and the event
index generator returns its call number. -/
def envA : Env :=
  { isHTMLElement := fun _ => true
    nodeName := fun _ => "DIV"
    contains := fun a b => decide (b < a)
    getReactComponentData := fun _ => none
    getElementTextEvent := fun _ sf => ⟨sf⟩
    getOrSetAutoLoggingID := fun x => x
    getNextEventIndex := fun k => (k : Int)
    cacheElementReactInfo := false }

/-- The initial tracker state: empty live map, empty metadata bags. -/
def state0 : TrackerState := ⟨[], fun _ => [], 0⟩

/-- An `added` notification: node 1 under surface `S1`, metadata bag at address 7,
at time 10, with causal top `C1`. -/
def addNotif : Notification := ⟨1, some "S1", ⟨"carried"⟩, 7, 10, some ⟨"C1"⟩⟩

/-- The mount event `processNode envA state0 addNotif .added` emits. -/
def mountEv : ALSurfaceMutationEventData := .mk
  { surface := "S1", element := 1, addTime := 10, removeTime := none,
    flowlet := ⟨"carried"⟩, addFlowlet := some ⟨"C1"⟩, removeFlowlet := none,
    reactComponentName := none, reactComponentStack := none, elementText := ⟨"S1"⟩,
    metadata := 7, event := .mount_component, eventTimestamp := 10,
    eventIndex := 0, autoLoggingID := 1, mountedDuration := none } none

/-- The open record for `S1` after that call. -/
def openInfo : SurfaceInfo :=
  { surface := "S1", element := 1, addTime := 10, removeTime := none,
    flowlet := ⟨"carried"⟩, addFlowlet := some ⟨"C1"⟩, removeFlowlet := none,
    reactComponentName := none, reactComponentStack := none, elementText := ⟨"S1"⟩,
    mountEvent := some mountEv, metadata := 7 }

/-- The tracker state after that call. -/
def state1 : TrackerState :=
  ⟨[("S1", openInfo)], storeSet (fun _ => []) 7 (metaSet [] "add_flowlet" "C1"), 1⟩

/-- A `removed` notification for node 1 under `S1` at time 20, causal top `C2`. -/
def removeNotif : Notification := ⟨1, some "S1", ⟨"carried2"⟩, 9, 20, some ⟨"C2"⟩⟩

/-- An `added` re-observation of `S1` from the containing node 2 at time 30. -/
def promoteNotif : Notification := ⟨2, some "S1", ⟨"carried3"⟩, 9, 30, some ⟨"C3"⟩⟩

/-- The record for `S1` after the ancestor promotion. -/
def promotedInfo : SurfaceInfo :=
  { openInfo with element := 2, addFlowlet := some ⟨"C3"⟩, addTime := 30 }

/-- The tracker state after the ancestor promotion. -/
def state2 : TrackerState :=
  { state1 with activeSurfaces := mapSet state1.activeSurfaces "S1" promotedInfo }

/-- A notification with no surface id. -/
def noSurfaceNotif : Notification := ⟨1, none, ⟨"x"⟩, 0, 5, none⟩

/-! ### Basic lemmas about the live-map operations -/

lemma mapGet_mapDelete_self (m : List (String × SurfaceInfo)) (k : String) :
    mapGet (mapDelete m k) k = none := by
  induction m with
  | nil => rfl
  | cons p rest ih =>
      by_cases h : p.1 = k <;> simp [mapDelete, mapGet, h, ih]

lemma mapGet_mapDelete_ne (m : List (String × SurfaceInfo)) (k k' : String)
    (h : k' ≠ k) : mapGet (mapDelete m k) k' = mapGet m k' := by
  induction m with
  | nil => rfl
  | cons p rest ih =>
      by_cases h1 : p.1 = k
      · subst h1
        have h2 : ¬ p.1 = k' := fun hc => h (hc ▸ rfl)
        simp [mapDelete, mapGet, h2, ih]
      · by_cases h2 : p.1 = k' <;> simp [mapDelete, mapGet, h1, h2, h, ih]

lemma mapGet_mapSet_self (m : List (String × SurfaceInfo)) (k : String) (v : SurfaceInfo) :
    mapGet (mapSet m k v) k = some v := by
  simp [mapSet, mapGet]

lemma mapGet_mapSet_ne (m : List (String × SurfaceInfo)) (k k' : String) (v : SurfaceInfo)
    (h : k' ≠ k) : mapGet (mapSet m k v) k' = mapGet m k' := by
  have h2 : ¬ k = k' := fun hc => h (hc ▸ rfl)
  simp [mapSet, mapGet, h2, mapGet_mapDelete_ne m k k' h]

lemma mapGet_mem {m : List (String × SurfaceInfo)} {k : String} {v : SurfaceInfo}
    (h : mapGet m k = some v) : (k, v) ∈ m := by
  induction m with
  | nil => cases h
  | cons p rest ih =>
      rcases p with ⟨a, b⟩
      unfold mapGet at h
      simp only at h
      by_cases h1 : a = k
      · rw [if_pos h1] at h
        cases h
        subst h1
        exact List.mem_cons_self _ _
      · rw [if_neg h1] at h
        exact List.mem_cons_of_mem _ (ih h)

lemma mem_mapDelete {m : List (String × SurfaceInfo)} {k : String}
    {p : String × SurfaceInfo} (h : p ∈ mapDelete m k) : p ∈ m := by
  induction m with
  | nil => cases h
  | cons q rest ih =>
      unfold mapDelete at h
      by_cases h1 : q.1 = k
      · rw [if_pos h1] at h
        exact List.mem_cons_of_mem _ (ih h)
      · rw [if_neg h1] at h
        rcases List.mem_cons.mp h with h2 | h2
        · exact h2 ▸ List.mem_cons_self _ _
        · exact List.mem_cons_of_mem _ (ih h2)

lemma mem_mapSet {m : List (String × SurfaceInfo)} {k : String} {v : SurfaceInfo}
    {p : String × SurfaceInfo} (h : p ∈ mapSet m k v) : p = (k, v) ∨ p ∈ m := by
  rcases List.mem_cons.mp h with h1 | h1
  · exact Or.inl h1
  · exact Or.inr (mem_mapDelete h1)

lemma metaGet_attachFlowlet_same (store : Nat → Metadata) (r : Nat) (key : String)
    (f : ALFlowlet) : metaGet (attachFlowlet store r key (some f) r) key = some f.fullName := by
  simp [attachFlowlet, storeSet, metaSet, metaGet]

lemma trackGuard_false {env : Env} {n : Notification}
    (htrack : env.isHTMLElement n.element = true)
    (hname : testLinkScript (env.nodeName n.element) = false) :
    (!(env.isHTMLElement n.element) || testLinkScript (env.nodeName n.element)) = false := by
  rw [htrack, hname]
  rfl

/-! ### Concrete evaluation facts about the fixtures -/

theorem processNode_addNotif :
    processNode envA state0 addNotif .added = .ok (state1, [mountEv]) := rfl

theorem reachable_state1 : Reachable state1 :=
  Reachable.step envA state0 state1 addNotif .added [mountEv] (Reachable.init _ _)
    processNode_addNotif

theorem processNode_promoteNotif :
    processNode envA state1 promoteNotif .added = .ok (state2, []) := rfl

/-! ### Claim theorems -/

/-- Claim C10: the trackable-kind guard uses the anchor-free regex
`/LINK|SCRIPT/`, so any notification (added or removed) whose element's
`nodeName` contains `LINK` or `SCRIPT` anywhere as a substring makes
`processNode` return before any state mutation or emission. -/
theorem link_script_substring_guard_noop (env : Env) (s : TrackerState)
    (n : Notification) (a : MutationAction)
    (h : strContainsSub (env.nodeName n.element) "LINK" = true ∨
         strContainsSub (env.nodeName n.element) "SCRIPT" = true) :
    processNode env s n a = .ok (s, []) := by
  have hts : testLinkScript (env.nodeName n.element) = true := by
    unfold testLinkScript
    rcases h with h | h <;> simp [h]
  unfold processNode
  simp [hts]

/-- Witness for C10: a custom element named `MY-LINK-CARD` (not a link tag) is
dropped by the guard. -/
theorem link_script_substring_guard_noop_witness :
    processNode
      { envA with nodeName := fun _ => "MY-LINK-CARD" } state0 addNotif .added
      = .ok (state0, []) :=
  link_script_substring_guard_noop
    { envA with nodeName := fun _ => "MY-LINK-CARD" } state0 addNotif .added
    (Or.inl (by decide))

/-- Claim C6: every ignorable input — untrackable node kind, missing surface
id, a remove for an absent record or a non-matching reference node, or a
duplicate/unrelated add (including re-notification of the current reference
node) — is a complete silent no-op: no error, no emission, and the state
(live map, all records, metadata heap, generator position) is unchanged. -/
theorem ignorable_input_noop (env : Env) (s : TrackerState) (n : Notification)
    (a : MutationAction) (h : IgnorableInput env s n a) :
    processNode env s n a = .ok (s, []) := by
  unfold processNode
  rcases h with h | h | ⟨ha, sf, hsf, h⟩ | ⟨ha, sf, info, hsf, hget, hcond⟩
  · rcases h with h | h <;> simp [h]
  · split
    · rfl
    · rw [h]
  · subst ha
    split
    · rfl
    · rw [hsf]
      rcases h with hget | ⟨info, hget, hne⟩
      · simp [hget]
      · simp [hget, hne]
  · subst ha
    split
    · rfl
    · rw [hsf]
      simp only [hget]
      rw [if_neg hcond]

/-- Claim C1: a `removed` notification whose surface has an open record and
whose node is that record's current reference node stamps `removeFlowlet` with
the causal top and `removeTime` with the entry timestamp, deletes the record
from the live map, and emits exactly one unmount event whose `eventTimestamp`
is that `removeTime` and which embeds the mount event stored in the record;
no record for the surface remains in the map. -/
theorem processNode_removed_matching_close (env : Env) (s : TrackerState)
    (n : Notification) (sf : String) (info : SurfaceInfo)
    (me : ALSurfaceMutationEventData)
    (htrack : env.isHTMLElement n.element = true)
    (hname : testLinkScript (env.nodeName n.element) = false)
    (hsf : n.surface = some sf)
    (hget : mapGet s.activeSurfaces sf = some info)
    (hel : info.element = n.element)
    (hme : info.mountEvent = some me) :
    ∃ s' e,
      processNode env s n .removed = .ok (s', [e]) ∧
      e.base.event = .unmount_component ∧
      e.base.removeFlowlet = n.currFlowlet ∧
      e.base.removeTime = some n.timestamp ∧
      e.base.eventTimestamp = n.timestamp ∧
      e.mountEvent = some me ∧
      s'.activeSurfaces = mapDelete s.activeSurfaces sf ∧
      mapGet s'.activeSurfaces sf = none := by
  have hguard := trackGuard_false htrack hname
  unfold processNode
  rw [hguard, hsf]
  simp only [Bool.false_eq_true, if_false, hget, hel, emitMutationEvent, hme,
    eq_self_iff_true, if_true]
  exact ⟨_, _, rfl, rfl, rfl, rfl, rfl, rfl, rfl, mapGet_mapDelete_self _ _⟩

/-- Witness for C1: closing the open record for `S1` with a matching remove
notification at time 20. -/
theorem processNode_removed_matching_close_witness :
    ∃ s' e,
      processNode envA state1 removeNotif .removed = .ok (s', [e]) ∧
      e.base.event = .unmount_component ∧
      e.base.removeFlowlet = removeNotif.currFlowlet ∧
      e.base.removeTime = some removeNotif.timestamp ∧
      e.base.eventTimestamp = removeNotif.timestamp ∧
      e.mountEvent = some mountEv ∧
      s'.activeSurfaces = mapDelete state1.activeSurfaces "S1" ∧
      mapGet s'.activeSurfaces "S1" = none :=
  processNode_removed_matching_close envA state1 removeNotif "S1" openInfo mountEv
    rfl (by decide) rfl rfl rfl rfl

/-- Claim C2: an `added` notification with a trackable element and a present
surface id for which no record is open builds a new record (introspection and
text capture happening exactly when `cacheElementReactInfo` is set), inserts
it into the live map, and emits exactly one mount event whose `eventTimestamp`
is the record's `addTime`. -/
theorem processNode_added_first_open (env : Env) (s : TrackerState)
    (n : Notification) (sf : String)
    (htrack : env.isHTMLElement n.element = true)
    (hname : testLinkScript (env.nodeName n.element) = false)
    (hsf : n.surface = some sf)
    (hget : mapGet s.activeSurfaces sf = none) :
    ∃ s' e info,
      processNode env s n .added = .ok (s', [e]) ∧
      mapGet s'.activeSurfaces sf = some info ∧
      e.base.event = .mount_component ∧
      e.base.eventTimestamp = info.addTime ∧
      info.addTime = n.timestamp ∧
      info.element = n.element ∧
      info.mountEvent = some e ∧
      info.reactComponentName =
        (if env.cacheElementReactInfo then
          (env.getReactComponentData n.element).map (fun d => d.name) else none) ∧
      info.elementText =
        (if env.cacheElementReactInfo then env.getElementTextEvent (some n.element) sf
         else env.getElementTextEvent none sf) := by
  have hguard := trackGuard_false htrack hname
  unfold processNode
  rw [hguard, hsf]
  cases hc : env.cacheElementReactInfo
  · simp only [Bool.false_eq_true, if_false, hget, emitMutationEvent, hc]
    exact ⟨_, _, _, rfl, mapGet_mapSet_self _ _ _, rfl, rfl, rfl, rfl, rfl, rfl, rfl⟩
  · simp only [Bool.false_eq_true, if_false, if_true, hget, emitMutationEvent, hc]
    exact ⟨_, _, _, rfl, mapGet_mapSet_self _ _ _, rfl, rfl, rfl, rfl, rfl, rfl, rfl⟩

/-- Witness for C2: opening surface `S1` at time 10 from the empty state. -/
theorem processNode_added_first_open_witness :
    ∃ s' e info,
      processNode envA state0 addNotif .added = .ok (s', [e]) ∧
      mapGet s'.activeSurfaces "S1" = some info ∧
      e.base.event = .mount_component ∧
      e.base.eventTimestamp = info.addTime ∧
      info.addTime = addNotif.timestamp ∧
      info.element = addNotif.element ∧
      info.mountEvent = some e ∧
      info.reactComponentName =
        (if envA.cacheElementReactInfo then
          (envA.getReactComponentData addNotif.element).map (fun d => d.name) else none) ∧
      info.elementText =
        (if envA.cacheElementReactInfo then
          envA.getElementTextEvent (some addNotif.element) "S1"
         else envA.getElementTextEvent none "S1") :=
  processNode_added_first_open envA state0 addNotif "S1" rfl (by decide) rfl rfl

/-- Claim C3: an `added` notification for a surface with an open record, whose
node differs from and contains the current reference node, updates the
record's `element`, `addFlowlet` and `addTime` in place and emits nothing;
and across all inputs, only the first-open path and the matching-close path
can ever emit an event. -/
theorem ancestor_promotion_silent_and_only_two_paths_emit :
    (∀ (env : Env) (s : TrackerState) (n : Notification) (sf : String) (info : SurfaceInfo),
      env.isHTMLElement n.element = true →
      testLinkScript (env.nodeName n.element) = false →
      n.surface = some sf →
      mapGet s.activeSurfaces sf = some info →
      n.element ≠ info.element →
      env.contains n.element info.element = true →
      processNode env s n .added =
        .ok ({ s with activeSurfaces := (mapSet s.activeSurfaces sf
                 { info with element := n.element, addFlowlet := n.currFlowlet,
                             addTime := n.timestamp }) }, [])) ∧
    (∀ (env : Env) (s : TrackerState) (n : Notification) (a : MutationAction)
       (s' : TrackerState) (es : List ALSurfaceMutationEventData),
      processNode env s n a = .ok (s', es) → es ≠ [] →
      FirstOpen env s n a ∨ MatchingClose env s n a) := by
  constructor
  · intro env s n sf info htrack hname hsf hget hne hcont
    have hguard := trackGuard_false htrack hname
    unfold processNode
    rw [hguard, hsf]
    simp only [Bool.false_eq_true, if_false, hget]
    rw [if_pos ⟨hne, hcont⟩]
  · intro env s n a s' es h hemit
    unfold processNode at h
    cases hg : (!env.isHTMLElement n.element || testLinkScript (env.nodeName n.element))
    case true =>
      rw [hg, if_pos rfl] at h
      cases h
      exact absurd rfl hemit
    rw [hg, if_neg Bool.false_ne_true] at h
    have hA : env.isHTMLElement n.element = true := by
      cases hx : env.isHTMLElement n.element
      · rw [hx] at hg; simp at hg
      · rfl
    have hB : testLinkScript (env.nodeName n.element) = false := by
      cases hx : testLinkScript (env.nodeName n.element)
      · rfl
      · rw [hA, hx] at hg; simp at hg
    cases hsf : n.surface
    case none =>
      rw [hsf] at h
      cases h
      exact absurd rfl hemit
    rename_i sf
    rw [hsf] at h
    cases a
    · -- added
      cases hmap : mapGet s.activeSurfaces sf
      case none =>
        simp only [hmap, emitMutationEvent] at h
        cases h
        exact Or.inl ⟨rfl, hA, hB, sf, hsf, hmap⟩
      case some info =>
        simp only [hmap] at h
        by_cases hcnd : n.element ≠ info.element ∧ env.contains n.element info.element = true
        · rw [if_pos hcnd] at h
          cases h
          exact absurd rfl hemit
        · rw [if_neg hcnd] at h
          cases h
          exact absurd rfl hemit
    · -- removed
      cases hmap : mapGet s.activeSurfaces sf
      case none =>
        simp only [hmap] at h
        cases h
        exact absurd rfl hemit
      case some info =>
        simp only [hmap] at h
        by_cases helem : info.element = n.element
        · rw [if_pos helem] at h
          simp only [emitMutationEvent] at h
          cases hm : info.mountEvent
          · rw [hm] at h
            simp at h
          · rw [hm] at h
            simp only at h
            cases h
            exact Or.inr ⟨rfl, hA, hB, sf, info, hsf, hmap, helem⟩
        · rw [if_neg helem] at h
          cases h
          exact absurd rfl hemit

/-- Witness for C3: promoting `S1` to the containing node 2 emits nothing, and
the one event of the opening call at time 10 comes from the first-open path. -/
theorem ancestor_promotion_silent_and_only_two_paths_emit_witness :
    (processNode envA state1 promoteNotif .added =
      .ok ({ state1 with activeSurfaces := (mapSet state1.activeSurfaces "S1"
               { openInfo with element := promoteNotif.element,
                               addFlowlet := promoteNotif.currFlowlet,
                               addTime := promoteNotif.timestamp }) }, [])) ∧
    (FirstOpen envA state0 addNotif .added ∨ MatchingClose envA state0 addNotif .added) :=
  ⟨ancestor_promotion_silent_and_only_two_paths_emit.1 envA state1 promoteNotif "S1"
      openInfo rfl (by decide) rfl rfl (by decide) (by decide),
   ancestor_promotion_silent_and_only_two_paths_emit.2 envA state0 addNotif .added
      state1 [mountEv] processNode_addNotif (by simp)⟩

/-- Claim C5: the unmount event's `mountedDuration` is
`(removeTime - addTime) / 1000` computed from the record's current `addTime`
(as possibly updated by ancestor promotion), and it is nonnegative whenever
the record's `addTime` is at most the closing timestamp (monotonic clock). -/
theorem unmount_mountedDuration_formula (env : Env) (s : TrackerState)
    (n : Notification) (sf : String) (info : SurfaceInfo)
    (me : ALSurfaceMutationEventData)
    (htrack : env.isHTMLElement n.element = true)
    (hname : testLinkScript (env.nodeName n.element) = false)
    (hsf : n.surface = some sf)
    (hget : mapGet s.activeSurfaces sf = some info)
    (hel : info.element = n.element)
    (hme : info.mountEvent = some me)
    (hmono : info.addTime ≤ n.timestamp) :
    ∃ s' e,
      processNode env s n .removed = .ok (s', [e]) ∧
      e.base.mountedDuration = some ((n.timestamp - info.addTime) / 1000) ∧
      0 ≤ (n.timestamp - info.addTime) / 1000 := by
  have hguard := trackGuard_false htrack hname
  have hnn : 0 ≤ (n.timestamp - info.addTime) / 1000 :=
    div_nonneg (sub_nonneg.mpr hmono) (by norm_num)
  unfold processNode
  rw [hguard, hsf]
  simp only [Bool.false_eq_true, if_false, hget, hel, emitMutationEvent, hme,
    eq_self_iff_true, if_true]
  exact ⟨_, _, rfl, rfl, hnn⟩

/-- Witness for C5: closing `S1` at time 40 after the promotion moved its
`addTime` to 30; the duration is computed from the promoted `addTime`. -/
theorem unmount_mountedDuration_formula_witness :
    ∃ s' e,
      processNode envA state2 ⟨2, some "S1", ⟨"c4"⟩, 9, 40, some ⟨"C4"⟩⟩ .removed
        = .ok (s', [e]) ∧
      e.base.mountedDuration
        = some (((⟨2, some "S1", ⟨"c4"⟩, 9, 40, some ⟨"C4"⟩⟩ : Notification).timestamp
            - promotedInfo.addTime) / 1000) ∧
      0 ≤ (((⟨2, some "S1", ⟨"c4"⟩, 9, 40, some ⟨"C4"⟩⟩ : Notification).timestamp
            - promotedInfo.addTime) / 1000) :=
  unmount_mountedDuration_formula envA state2
    ⟨2, some "S1", ⟨"c4"⟩, 9, 40, some ⟨"C4"⟩⟩ "S1" promotedInfo mountEv
    rfl (by decide) rfl rfl rfl rfl (by decide)

/-- Exhaustive characterization of one `processNode` call that returns `.ok`:
either it is a no-op, or it ran the first-open path, the ancestor-promotion
path, or the matching-close path, with the corresponding state and event
shapes. -/
lemma processNode_cases (env : Env) (s : TrackerState) (n : Notification)
    (a : MutationAction) (s' : TrackerState) (es : List ALSurfaceMutationEventData)
    (h : processNode env s n a = .ok (s', es)) :
    (s' = s ∧ es = []) ∨
    (a = .added ∧ env.isHTMLElement n.element = true ∧
      testLinkScript (env.nodeName n.element) = false ∧
      ∃ sf info1 ev, n.surface = some sf ∧
        mapGet s.activeSurfaces sf = none ∧
        es = [ev] ∧
        s'.activeSurfaces = mapSet s.activeSurfaces sf info1 ∧
        s'.genCalls = s.genCalls + 1 ∧
        ev.base.eventIndex = env.getNextEventIndex s.genCalls ∧
        info1.mountEvent = some ev ∧
        ev.base.metadata = n.metadata ∧
        info1.metadata = n.metadata ∧
        info1.element = n.element) ∨
    (a = .added ∧ es = [] ∧
      ∃ sf info, n.surface = some sf ∧
        mapGet s.activeSurfaces sf = some info ∧
        n.element ≠ info.element ∧ env.contains n.element info.element = true ∧
        s'.activeSurfaces = (mapSet s.activeSurfaces sf
          { info with element := n.element, addFlowlet := n.currFlowlet,
                      addTime := n.timestamp }) ∧
        s'.genCalls = s.genCalls) ∨
    (a = .removed ∧ env.isHTMLElement n.element = true ∧
      testLinkScript (env.nodeName n.element) = false ∧
      ∃ sf info ev, n.surface = some sf ∧
        mapGet s.activeSurfaces sf = some info ∧
        info.element = n.element ∧
        es = [ev] ∧
        s'.activeSurfaces = mapDelete s.activeSurfaces sf ∧
        s'.genCalls = s.genCalls + 1 ∧
        ev.base.eventIndex = env.getNextEventIndex s.genCalls) := by
  unfold processNode at h
  cases hg : (!env.isHTMLElement n.element || testLinkScript (env.nodeName n.element))
  case true =>
    rw [hg, if_pos rfl] at h
    cases h
    exact Or.inl ⟨rfl, rfl⟩
  rw [hg, if_neg Bool.false_ne_true] at h
  have hA : env.isHTMLElement n.element = true := by
    cases hx : env.isHTMLElement n.element
    · rw [hx] at hg; simp at hg
    · rfl
  have hB : testLinkScript (env.nodeName n.element) = false := by
    cases hx : testLinkScript (env.nodeName n.element)
    · rfl
    · rw [hA, hx] at hg; simp at hg
  cases hsf : n.surface
  case none =>
    rw [hsf] at h
    cases h
    exact Or.inl ⟨rfl, rfl⟩
  rename_i sf
  rw [hsf] at h
  cases a
  · cases hmap : mapGet s.activeSurfaces sf
    case none =>
      simp only [hmap, emitMutationEvent] at h
      cases h
      exact Or.inr (Or.inl ⟨rfl, hA, hB, sf, _, _, rfl, hmap, rfl, rfl, rfl, rfl,
        rfl, rfl, rfl, rfl⟩)
    case some info =>
      simp only [hmap] at h
      by_cases hcnd : n.element ≠ info.element ∧ env.contains n.element info.element = true
      · rw [if_pos hcnd] at h
        cases h
        exact Or.inr (Or.inr (Or.inl ⟨rfl, rfl, sf, info, rfl, hmap, hcnd.1, hcnd.2,
          rfl, rfl⟩))
      · rw [if_neg hcnd] at h
        cases h
        exact Or.inl ⟨rfl, rfl⟩
  · cases hmap : mapGet s.activeSurfaces sf
    case none =>
      simp only [hmap] at h
      cases h
      exact Or.inl ⟨rfl, rfl⟩
    case some info =>
      simp only [hmap] at h
      by_cases helem : info.element = n.element
      · rw [if_pos helem] at h
        simp only [emitMutationEvent] at h
        cases hm : info.mountEvent
        · rw [hm] at h
          simp at h
        · rw [hm] at h
          simp only at h
          cases h
          exact Or.inr (Or.inr (Or.inr ⟨rfl, hA, hB, sf, info, _, rfl, hmap, helem,
            rfl, rfl, rfl, rfl⟩))
      · rw [if_neg helem] at h
        cases h
        exact Or.inl ⟨rfl, rfl⟩

/-- Claim C7: an open record's `element` (reference node) can change across a
call only through the ancestor-promotion rule: the call was an `added`
notification for that very surface whose node became the new reference node,
differed from the old one, and contains the old one. -/
theorem referenceNode_changes_only_by_promotion (env : Env) (s : TrackerState)
    (n : Notification) (a : MutationAction) (s' : TrackerState)
    (es : List ALSurfaceMutationEventData) (sf : String) (info info' : SurfaceInfo)
    (h : processNode env s n a = .ok (s', es))
    (hb : mapGet s.activeSurfaces sf = some info)
    (ha : mapGet s'.activeSurfaces sf = some info')
    (hchanged : info'.element ≠ info.element) :
    a = .added ∧ n.surface = some sf ∧ info'.element = n.element ∧
      env.contains n.element info.element = true := by
  rcases processNode_cases env s n a s' es h with
    ⟨hs, _⟩ |
    ⟨hadd, _, _, sfn, info1, ev, hsfn, hmapn, _, hmaps, _⟩ |
    ⟨hadd, _, sfn, infoN, hsfn, hmapn, hneN, hcontN, hmaps, _⟩ |
    ⟨hrem, _, _, sfn, infoN, ev, hsfn, hmapn, helemN, _, hmaps, _⟩
  · subst hs
    rw [hb] at ha
    cases ha
    exact absurd rfl hchanged
  · by_cases hkey : sf = sfn
    · subst hkey
      rw [hb] at hmapn
      cases hmapn
    · rw [hmaps, mapGet_mapSet_ne _ _ _ _ hkey] at ha
      rw [hb] at ha
      cases ha
      exact absurd rfl hchanged
  · by_cases hkey : sf = sfn
    · subst hkey
      rw [hb] at hmapn
      cases hmapn
      rw [hmaps, mapGet_mapSet_self] at ha
      cases ha
      exact ⟨hadd, hsfn, rfl, hcontN⟩
    · rw [hmaps, mapGet_mapSet_ne _ _ _ _ hkey] at ha
      rw [hb] at ha
      cases ha
      exact absurd rfl hchanged
  · by_cases hkey : sf = sfn
    · subst hkey
      rw [hmaps, mapGet_mapDelete_self] at ha
      cases ha
    · rw [hmaps, mapGet_mapDelete_ne _ _ _ hkey] at ha
      rw [hb] at ha
      cases ha
      exact absurd rfl hchanged

/-- Witness for C7: across the promotion call, the reference node of `S1`
changed from node 1 to node 2, and indeed the call was an `added` notification
for `S1` with node 2 containing node 1. -/
theorem referenceNode_changes_only_by_promotion_witness :
    MutationAction.added = .added ∧ promoteNotif.surface = some "S1" ∧
      promotedInfo.element = promoteNotif.element ∧
      envA.contains promoteNotif.element openInfo.element = true :=
  referenceNode_changes_only_by_promotion envA state1 promoteNotif .added state2 []
    "S1" openInfo promotedInfo processNode_promoteNotif rfl rfl (by decide)

/-- Per-call accounting of the event index generator: a call either emits
nothing and leaves the call counter alone, or emits exactly one event whose
index comes from one fresh generator call. -/
lemma processNode_genCalls (env : Env) (s : TrackerState) (n : Notification)
    (a : MutationAction) (s' : TrackerState) (es : List ALSurfaceMutationEventData)
    (h : processNode env s n a = .ok (s', es)) :
    (es = [] ∧ s'.genCalls = s.genCalls) ∨
    (∃ e, es = [e] ∧ e.base.eventIndex = env.getNextEventIndex s.genCalls ∧
      s'.genCalls = s.genCalls + 1) := by
  rcases processNode_cases env s n a s' es h with
    ⟨hs, hes⟩ |
    ⟨_, _, _, sf, info1, ev, _, _, hes, _, hgen, hidx, _⟩ |
    ⟨_, hes, _, _, _, _, _, _, _, hgen⟩ |
    ⟨_, _, _, sf, info, ev, _, _, _, hes, _, hgen, hidx⟩
  · exact Or.inl ⟨hes, by rw [hs]⟩
  · exact Or.inr ⟨ev, hes, hidx, hgen⟩
  · exact Or.inl ⟨hes, hgen⟩
  · exact Or.inr ⟨ev, hes, hidx, hgen⟩

/-- Interval accounting for a whole run: the generator counter only grows,
every emitted event's index comes from a call inside the run's window, and
the emitted indices are strictly increasing when the generator is. -/
lemma runProcess_calls (env : Env)
    (hmono : ∀ i j : Nat, i < j → env.getNextEventIndex i < env.getNextEventIndex j) :
    ∀ (ns : List (Notification × MutationAction)) (s s' : TrackerState)
      (es : List ALSurfaceMutationEventData),
      runProcess env s ns = .ok (s', es) →
      s.genCalls ≤ s'.genCalls ∧
      (∀ e ∈ es, ∃ c, s.genCalls ≤ c ∧ c < s'.genCalls ∧
        e.base.eventIndex = env.getNextEventIndex c) ∧
      List.Pairwise (fun e1 e2 => e1.base.eventIndex < e2.base.eventIndex) es := by
  intro ns
  induction ns with
  | nil =>
      intro s s' es h
      unfold runProcess at h
      cases h
      exact ⟨le_refl _, fun e he => absurd he (List.not_mem_nil e), List.Pairwise.nil⟩
  | cons p rest ih =>
      obtain ⟨n, a⟩ := p
      intro s s' es h
      unfold runProcess at h
      cases h1 : processNode env s n a with
      | error e => rw [h1] at h; simp at h
      | ok r =>
          obtain ⟨s1, es1⟩ := r
          simp only [h1] at h
          cases h2 : runProcess env s1 rest with
          | error e => rw [h2] at h; simp at h
          | ok r2 =>
              obtain ⟨s2, es2⟩ := r2
              simp only [h2] at h
              cases h
              obtain ⟨hle, hint, hpw⟩ := ih s1 _ _ h2
              rcases processNode_genCalls env s n a s1 es1 h1 with
                ⟨hes1, hgc⟩ | ⟨e, hes1, hidx, hgc⟩
              · subst hes1
                simp only [List.nil_append]
                refine ⟨by omega, ?_, hpw⟩
                intro e2 he2
                obtain ⟨c, hc1, hc2, hc3⟩ := hint e2 he2
                exact ⟨c, by omega, hc2, hc3⟩
              · subst hes1
                simp only [List.singleton_append]
                refine ⟨by omega, ?_, ?_⟩
                · intro e2 he2
                  rcases List.mem_cons.mp he2 with rfl | he2
                  · exact ⟨s.genCalls, le_refl _, by omega, hidx⟩
                  · obtain ⟨c, hc1, hc2, hc3⟩ := hint e2 he2
                    exact ⟨c, by omega, hc2, hc3⟩
                · refine List.pairwise_cons.mpr ⟨?_, hpw⟩
                  intro e2 he2
                  obtain ⟨c, hc1, hc2, hc3⟩ := hint e2 he2
                  rw [hidx, hc3]
                  exact hmono _ _ (by omega)

/-- Claim C9: each emitted event's index comes from exactly one fresh call of
the external index generator at emission time, and over any run the emitted
indices are strictly increasing provided the generator's stream is strictly
increasing. -/
theorem eventIndex_fresh_and_strictly_increasing :
    (∀ (env : Env) (s : TrackerState) (n : Notification) (a : MutationAction)
       (s' : TrackerState) (es : List ALSurfaceMutationEventData),
      processNode env s n a = .ok (s', es) →
      (es = [] ∧ s'.genCalls = s.genCalls) ∨
      (∃ e, es = [e] ∧ e.base.eventIndex = env.getNextEventIndex s.genCalls ∧
        s'.genCalls = s.genCalls + 1)) ∧
    (∀ env : Env,
      (∀ i j : Nat, i < j → env.getNextEventIndex i < env.getNextEventIndex j) →
      ∀ (ns : List (Notification × MutationAction)) (s s' : TrackerState)
        (es : List ALSurfaceMutationEventData),
      runProcess env s ns = .ok (s', es) →
      List.Pairwise (fun e1 e2 => e1.base.eventIndex < e2.base.eventIndex) es) := by
  constructor
  · exact processNode_genCalls
  · intro env hmono ns s s' es h
    exact (runProcess_calls env hmono ns s s' es h).2.2

/-- Witness for C9: the opening call consumes generator call 0, and the
one-notification run has (trivially) increasing indices. -/
theorem eventIndex_fresh_and_strictly_increasing_witness :
    (([mountEv] = [] ∧ state1.genCalls = state0.genCalls) ∨
      (∃ e, [mountEv] = [e] ∧
        e.base.eventIndex = envA.getNextEventIndex state0.genCalls ∧
        state1.genCalls = state0.genCalls + 1)) ∧
    List.Pairwise (fun e1 e2 => e1.base.eventIndex < e2.base.eventIndex) [mountEv] :=
  ⟨eventIndex_fresh_and_strictly_increasing.1 envA state0 addNotif .added state1
      [mountEv] processNode_addNotif,
   eventIndex_fresh_and_strictly_increasing.2 envA
      (fun i j hij => Int.ofNat_lt.mpr hij) [(addNotif, .added)] state0 state1
      [mountEv] rfl⟩

/-- The `RecordsOk` invariant is preserved by every successful call. -/
lemma recordsOk_step (env : Env) (s : TrackerState) (n : Notification)
    (a : MutationAction) (s' : TrackerState) (es : List ALSurfaceMutationEventData)
    (hok : RecordsOk s) (h : processNode env s n a = .ok (s', es)) : RecordsOk s' := by
  rcases processNode_cases env s n a s' es h with
    ⟨hs, _⟩ |
    ⟨_, _, _, sf, info1, ev, _, _, _, hmaps, _, _, hm1, hevm, hm2, _⟩ |
    ⟨_, _, sf, info, _, hmapn, _, _, hmaps, _⟩ |
    ⟨_, _, _, sf, info, ev, _, _, _, _, hmaps, _⟩
  · rw [hs]; exact hok
  · intro p hp
    rw [hmaps] at hp
    rcases mem_mapSet hp with rfl | hp2
    · exact ⟨ev, hm1, by rw [hevm, hm2]⟩
    · exact hok p hp2
  · intro p hp
    rw [hmaps] at hp
    rcases mem_mapSet hp with rfl | hp2
    · obtain ⟨me, hme, hmeta⟩ := hok (sf, info) (mapGet_mem hmapn)
      exact ⟨me, hme, hmeta⟩
    · exact hok p hp2
  · intro p hp
    rw [hmaps] at hp
    exact hok p (mem_mapDelete hp)

/-- Every reachable state satisfies `RecordsOk`. -/
lemma reachable_recordsOk {s : TrackerState} (h : Reachable s) : RecordsOk s := by
  induction h with
  | init store k => exact fun p hp => absurd hp (List.not_mem_nil p)
  | step env s s' n a es hr hstep ih => exact recordsOk_step env s n a s' es ih hstep

/-- On a `RecordsOk` state no call can hit the fatal assertion. -/
lemma recordsOk_no_error (env : Env) (s : TrackerState) (n : Notification)
    (a : MutationAction) (hok : RecordsOk s) :
    ∃ r, processNode env s n a = .ok r := by
  unfold processNode
  cases hg : (!env.isHTMLElement n.element || testLinkScript (env.nodeName n.element))
  case true => exact ⟨_, rfl⟩
  rw [if_neg Bool.false_ne_true]
  cases hsf : n.surface
  case none => exact ⟨_, rfl⟩
  rename_i sf
  cases a
  · cases hmap : mapGet s.activeSurfaces sf
    case none => simp only [hmap, emitMutationEvent]; exact ⟨_, rfl⟩
    case some info =>
      simp only [hmap]
      by_cases hcnd : n.element ≠ info.element ∧ env.contains n.element info.element = true
      · rw [if_pos hcnd]; exact ⟨_, rfl⟩
      · rw [if_neg hcnd]; exact ⟨_, rfl⟩
  · cases hmap : mapGet s.activeSurfaces sf
    case none => simp only [hmap]; exact ⟨_, rfl⟩
    case some info =>
      simp only [hmap]
      by_cases helem : info.element = n.element
      · rw [if_pos helem]
        obtain ⟨me, hme, _⟩ := hok (sf, info) (mapGet_mem hmap)
        have hme2 : info.mountEvent = some me := hme
        simp only [emitMutationEvent, hme2]
        exact ⟨_, rfl⟩
      · rw [if_neg helem]; exact ⟨_, rfl⟩

/-- Claim C4: in every reachable state all live records hold a mount event,
and from a reachable state no call returns the fatal-assertion error — the
`assert` in the unmount-emission path never fires. -/
theorem mountEvent_invariant_no_fatal_assert :
    (∀ s : TrackerState, Reachable s →
      ∀ p ∈ s.activeSurfaces, p.2.mountEvent ≠ none) ∧
    (∀ (env : Env) (s : TrackerState) (n : Notification) (a : MutationAction),
      Reachable s → ∃ r, processNode env s n a = .ok r) := by
  constructor
  · intro s hs p hp
    obtain ⟨me, hme, _⟩ := reachable_recordsOk hs p hp
    rw [hme]
    exact Option.some_ne_none me
  · intro env s n a hs
    exact recordsOk_no_error env s n a (reachable_recordsOk hs)

/-- Witness for C4: the reachable one-record state has only opened records,
and closing it returns normally. -/
theorem mountEvent_invariant_no_fatal_assert_witness :
    (∀ p ∈ state1.activeSurfaces, p.2.mountEvent ≠ none) ∧
    (∃ r, processNode envA state1 removeNotif .removed = .ok r) :=
  ⟨mountEvent_invariant_no_fatal_assert.1 state1 reachable_state1,
   mountEvent_invariant_no_fatal_assert.2 envA state1 removeNotif .removed
      reachable_state1⟩

/-- Claim C8: when a flowlet was captured, the mount path writes
`add_flowlet` and the unmount path writes `remove_flowlet` (the flowlet's
full name) into the record's metadata bag before emitting; the bag is shared
by address between the record, the mount event and the unmount event, so the
`remove_flowlet` entry written at close time is visible through the mount
event's metadata address as well. -/
theorem flowlet_metadata_stamping_shared_bag :
    (∀ (env : Env) (s : TrackerState) (n : Notification) (sf : String) (f : ALFlowlet),
      env.isHTMLElement n.element = true →
      testLinkScript (env.nodeName n.element) = false →
      n.surface = some sf →
      mapGet s.activeSurfaces sf = none →
      n.currFlowlet = some f →
      ∃ s' e info,
        processNode env s n .added = .ok (s', [e]) ∧
        e.base.metadata = n.metadata ∧
        metaGet (s'.metaStore n.metadata) "add_flowlet" = some f.fullName ∧
        mapGet s'.activeSurfaces sf = some info ∧
        info.metadata = n.metadata ∧
        info.mountEvent = some e) ∧
    (∀ (env : Env) (s : TrackerState) (n : Notification) (sf : String)
       (info : SurfaceInfo) (f : ALFlowlet),
      Reachable s →
      env.isHTMLElement n.element = true →
      testLinkScript (env.nodeName n.element) = false →
      n.surface = some sf →
      mapGet s.activeSurfaces sf = some info →
      info.element = n.element →
      n.currFlowlet = some f →
      ∃ s' e me,
        processNode env s n .removed = .ok (s', [e]) ∧
        info.mountEvent = some me ∧
        e.mountEvent = some me ∧
        e.base.metadata = info.metadata ∧
        me.base.metadata = info.metadata ∧
        metaGet (s'.metaStore info.metadata) "remove_flowlet" = some f.fullName) := by
  constructor
  · intro env s n sf f htrack hname hsf hget hf
    have hguard := trackGuard_false htrack hname
    unfold processNode
    rw [hguard, hsf]
    simp only [Bool.false_eq_true, if_false, hget, emitMutationEvent, hf]
    exact ⟨_, _, _, rfl, rfl, metaGet_attachFlowlet_same _ _ _ f,
      mapGet_mapSet_self _ _ _, rfl, rfl⟩
  · intro env s n sf info f hreach htrack hname hsf hget hel hf
    obtain ⟨me, hme, hmeta⟩ := reachable_recordsOk hreach (sf, info) (mapGet_mem hget)
    have hme2 : info.mountEvent = some me := hme
    have hmeta2 : me.base.metadata = info.metadata := hmeta
    have hguard := trackGuard_false htrack hname
    unfold processNode
    rw [hguard, hsf]
    simp only [Bool.false_eq_true, if_false, hget, hel, eq_self_iff_true, if_true,
      emitMutationEvent, hme2, hf]
    exact ⟨_, _, me, rfl, rfl, rfl, rfl, hmeta2, metaGet_attachFlowlet_same _ _ _ f⟩

/-- Witness for C8: opening `S1` under causal top `C1` stamps `add_flowlet`,
and closing it under causal top `C2` stamps `remove_flowlet` into the same
bag (address 7) shared with the retained mount event. -/
theorem flowlet_metadata_stamping_shared_bag_witness :
    (∃ s' e info, processNode envA state0 addNotif .added = .ok (s', [e]) ∧
      e.base.metadata = addNotif.metadata ∧
      metaGet (s'.metaStore addNotif.metadata) "add_flowlet"
        = some (ALFlowlet.mk "C1").fullName ∧
      mapGet s'.activeSurfaces "S1" = some info ∧
      info.metadata = addNotif.metadata ∧
      info.mountEvent = some e) ∧
    (∃ s' e me, processNode envA state1 removeNotif .removed = .ok (s', [e]) ∧
      openInfo.mountEvent = some me ∧
      e.mountEvent = some me ∧
      e.base.metadata = openInfo.metadata ∧
      me.base.metadata = openInfo.metadata ∧
      metaGet (s'.metaStore openInfo.metadata) "remove_flowlet"
        = some (ALFlowlet.mk "C2").fullName) :=
  ⟨flowlet_metadata_stamping_shared_bag.1 envA state0 addNotif "S1" ⟨"C1"⟩
      rfl (by decide) rfl rfl rfl,
   flowlet_metadata_stamping_shared_bag.2 envA state1 removeNotif "S1" openInfo ⟨"C2"⟩
      reachable_state1 rfl (by decide) rfl rfl rfl rfl⟩

/-- Witness for C6: a remove notification for node 2 while the record for `S1`
tracks node 1 is dropped without touching the state. -/
theorem ignorable_input_noop_witness :
    processNode envA state1 ⟨2, some "S1", ⟨"x"⟩, 0, 40, none⟩ .removed
      = .ok (state1, []) :=
  ignorable_input_noop envA state1 ⟨2, some "S1", ⟨"x"⟩, 0, 40, none⟩ .removed
    (Or.inr (Or.inr (Or.inl ⟨rfl, "S1", rfl, Or.inr ⟨openInfo, rfl, by decide⟩⟩)))
